import Mathlib

/-!
Verification of the market-alert bot signal engine (src/nifty_alerts.py).

The embedding below translates the signal-computation pipeline of
`compute_signals`, the caller guard in `job`, the bias computation of
`ema_status_alert`, and the holiday cache of `is_market_holiday` into
executable Lean definitions over exact rationals.

Modelling conventions:
* A pandas column is a function from row index to `Option ℚ`; `none`
  models NaN (an undefined indicator value).  All pandas comparisons
  (`>`, `<`, `>=`, `<=`) return `False` when either operand is NaN, which
  the `optLt`/`optLe`/`optGt`/`optGe` helpers reproduce.
* `RSIIndicator(close, window=14).rsi()` from the `ta` library computes
  Wilder smoothing of gains and losses with `ewm(alpha=1/14,
  min_periods=14, adjust=False)` over `diff.where(diff > 0, 0.0)` and
  `-diff.where(diff < 0, -0.0)` for `diff = close.diff(1)`.  The `where`
  replaces every row failing the condition, including the row-0 NaN of
  `diff(1)` (NaN compares False), by 0.0, so the smoothed gain/loss
  series are NaN-free, seeded at row 0 with that spurious 0.0
  observation, and `min_periods=14` is reached at row index 13: the RSI
  column is defined from row 13 on.  The value is
  `np.where(avgLoss == 0, 100, 100 - 100/(1+rs))`.
* `EMAIndicator(close, window=w).ema_indicator()` computes
  `close.ewm(span=w, min_periods=w, adjust=False).mean()`: the recursion
  `y0 = x0, y(t) = (1-a)*y(t-1) + a*x(t)` with `a = 2/(w+1)`, masked to
  NaN before row `w-1`.
* `df.iloc[-1]` on an empty frame raises, so `computeSignals` returns
  `none` for an empty series.
* Python `x or y` evaluates `bool(x)`; `bool` of a pandas DataFrame
  raises `ValueError` unconditionally, which the `job` model records as
  a crash outcome.
-/

namespace NiftyAlerts

/-- Close price at row `j` (the `close` column read by the indicators). -/
def closeF (closes : List ℚ) (j : ℕ) : ℚ := closes.getD j 0

/-- Exponential weighted recursion of `ewm(..., adjust=False)`:
`y0 = x0`, `y(i+1) = (1-a)*y(i) + a*x(i+1)`. -/
def ewmRec (a : ℚ) (x : ℕ → ℚ) : ℕ → ℚ
  | 0 => x 0
  | i + 1 => (1 - a) * ewmRec a x i + a * x (i + 1)

/-- Value of the `ewm(span=w, adjust=False)` recursion over the close
column at row `i` (before the `min_periods` NaN mask). -/
def emaVal (w : ℕ) (closes : List ℚ) (i : ℕ) : ℚ :=
  ewmRec (2 / ((w : ℚ) + 1)) (closeF closes) i

/-- The `ema_indicator()` column of `EMAIndicator(close, window=w)`:
`close.ewm(span=w, min_periods=w, adjust=False).mean()`.  Rows outside
the frame or before `w-1` are NaN. -/
def emaCol (w : ℕ) (closes : List ℚ) (i : ℕ) : Option ℚ :=
  if i < closes.length ∧ w ≤ i + 1 then some (emaVal w closes i) else none

/-- Column `shift(k)`: row `i` holds the source column's row `i - k`,
NaN for the first `k` rows. -/
def shiftCol (k : ℕ) (col : ℕ → Option ℚ) (i : ℕ) : Option ℚ :=
  if k ≤ i then col (i - k) else none

/-- Pandas `a < b` on possibly-NaN values: False when either is NaN. -/
def optLt : Option ℚ → Option ℚ → Bool
  | some a, some b => decide (a < b)
  | _, _ => false

/-- Pandas `a <= b` on possibly-NaN values: False when either is NaN. -/
def optLe : Option ℚ → Option ℚ → Bool
  | some a, some b => decide (a ≤ b)
  | _, _ => false

/-- Pandas `a > b` on possibly-NaN values: False when either is NaN. -/
def optGt : Option ℚ → Option ℚ → Bool
  | some a, some b => decide (b < a)
  | _, _ => false

/-- Pandas `a >= b` on possibly-NaN values: False when either is NaN. -/
def optGe : Option ℚ → Option ℚ → Bool
  | some a, some b => decide (b ≤ a)
  | _, _ => false

/-- Upward move of `close.diff(1)` at row `j` (for `j ≥ 1`):
`diff.where(diff > 0, 0.0)`. -/
def gainAt (closes : List ℚ) (j : ℕ) : ℚ :=
  max (closeF closes j - closeF closes (j - 1)) 0

/-- Downward move of `close.diff(1)` at row `j` (for `j ≥ 1`):
`-diff.where(diff < 0, -0.0)`. -/
def lossAt (closes : List ℚ) (j : ℕ) : ℚ :=
  max (closeF closes (j - 1) - closeF closes j) 0

/-- Wilder-smoothed average gain at row `i`:
`up_direction.ewm(alpha=1/14, adjust=False)` over the NaN-free gain
series.  Row 0 of the gain series is the row-0 NaN of `diff(1)` turned
into 0.0 by `where(diff > 0, 0.0)`, so the recursion is seeded at row 0
with a 0.0 observation and the first real gain enters with weight
alpha. -/
def avgGain (closes : List ℚ) (i : ℕ) : ℚ :=
  ewmRec (1 / 14) (fun j => if j = 0 then 0 else gainAt closes j) i

/-- Wilder-smoothed average loss at row `i`: same seeding as `avgGain`
(row 0 is the where-replaced 0.0 observation). -/
def avgLoss (closes : List ℚ) (i : ℕ) : ℚ :=
  ewmRec (1 / 14) (fun j => if j = 0 then 0 else lossAt closes j) i

/-- RSI value at row `i` before the `min_periods` mask:
`np.where(avgLoss == 0, 100, 100 - 100/(1 + avgGain/avgLoss))`. -/
def rsiVal (closes : List ℚ) (i : ℕ) : ℚ :=
  if avgLoss closes i = 0 then 100
  else 100 - 100 / (1 + avgGain closes i / avgLoss closes i)

/-- The `rsi()` column of `RSIIndicator(close, window=14)`: NaN outside
the frame and before row 13.  The gain/loss series are NaN-free (the
`where` call replaces the row-0 NaN by 0.0), so `min_periods=14` counts
rows 0..i and is satisfied from row index 13 on. -/
def rsiCol (closes : List ℚ) (i : ℕ) : Option ℚ :=
  if i < closes.length ∧ 13 ≤ i then some (rsiVal closes i) else none

/-- Column `close` as an optional-valued column (rows in the frame). -/
def closeCol (closes : List ℚ) (i : ℕ) : Option ℚ :=
  if i < closes.length then some (closeF closes i) else none

/-- Divergence lookback, `LOOKBACK = 90` in the script. -/
def LOOKBACK : ℕ := 90

/-- Column `ema_bull`:
`(df["ema5"] > df["ema21"]) & (df["ema5"].shift(1) <= df["ema21"].shift(1))`. -/
def emaBullCol (closes : List ℚ) (i : ℕ) : Bool :=
  optGt (emaCol 5 closes i) (emaCol 21 closes i) &&
    optLe (shiftCol 1 (emaCol 5 closes) i) (shiftCol 1 (emaCol 21 closes) i)

/-- Column `ema_bear`:
`(df["ema5"] < df["ema21"]) & (df["ema5"].shift(1) >= df["ema21"].shift(1))`. -/
def emaBearCol (closes : List ℚ) (i : ℕ) : Bool :=
  optLt (emaCol 5 closes i) (emaCol 21 closes i) &&
    optGe (shiftCol 1 (emaCol 5 closes) i) (shiftCol 1 (emaCol 21 closes) i)

/-- Column `bull_div`:
`(df["close"] < df["close"].shift(LOOKBACK)) & (df["rsi"] > df["rsi"].shift(LOOKBACK))`. -/
def bullDivCol (closes : List ℚ) (i : ℕ) : Bool :=
  optLt (closeCol closes i) (shiftCol LOOKBACK (closeCol closes) i) &&
    optGt (rsiCol closes i) (shiftCol LOOKBACK (rsiCol closes) i)

/-- Column `bear_div`:
`(df["close"] > df["close"].shift(LOOKBACK)) & (df["rsi"] < df["rsi"].shift(LOOKBACK))`. -/
def bearDivCol (closes : List ℚ) (i : ℕ) : Bool :=
  optGt (closeCol closes i) (shiftCol LOOKBACK (closeCol closes) i) &&
    optLt (rsiCol closes i) (shiftCol LOOKBACK (rsiCol closes) i)

/-- Difference of possibly-NaN values: NaN when either operand is NaN. -/
def optSub : Option ℚ → Option ℚ → Option ℚ
  | some a, some b => some (a - b)
  | _, _ => none

/-- The `diff = last["ema5"] - last["ema21"]` value on the final row
(NaN when either EMA is NaN there), shared by the debug status line of
`compute_signals` and by `ema_status_alert`. -/
def diffLast (closes : List ℚ) : Option ℚ :=
  optSub (emaCol 5 closes (closes.length - 1))
    (emaCol 21 closes (closes.length - 1))

/-- Trend label of the debug status line:
`"Bullish" if diff > 0 else "Bearish"`; a NaN `diff` compares as not
greater than 0, hence "Bearish". -/
def trendLabel (d : Option ℚ) : String :=
  match d with
  | some x => if 0 < x then "Bullish" else "Bearish"
  | none => "Bearish"

/-- Bias label of `ema_status_alert`:
`"Bullish Bias" if diff > 0 else "Bearish Bias"`. -/
def biasLabel (d : Option ℚ) : String :=
  match d with
  | some x => if 0 < x then "Bullish Bias" else "Bearish Bias"
  | none => "Bearish Bias"

/-- Bias reported by the daily summary `ema_status_alert` for a fetched
series: it recomputes `ema5` and `ema21` exactly as `compute_signals`
does and applies the `diff > 0` tie-break. -/
def emaStatusBias (closes : List ℚ) : String :=
  biasLabel (diffLast closes)

/-- Status record carried by the debug status message of
`compute_signals` (close, EMA5, EMA21, their difference, trend label). -/
structure StatusLine where
  close : ℚ
  ema5 : Option ℚ
  ema21 : Option ℚ
  diff : Option ℚ
  trend : String
deriving DecidableEq

/-- Result of one `compute_signals` call: the four flag values read off
the final row, the list of fired signal messages (in the fixed order the
code appends them), and the debug status record.  `debugStatus = some s`
models the debug-mode branch printing the status message and passing it
to `send_alert` (an I/O action); `none` means no status I/O happened. -/
structure SignalOutput where
  emaBull : Bool
  emaBear : Bool
  bullDiv : Bool
  bearDiv : Bool
  signals : List String
  debugStatus : Option StatusLine
deriving DecidableEq

/-- The `compute_signals(df)` function.  It evaluates the four flag
columns on the final row, collects the fired signal messages, and in
debug mode emits the status line.  On an empty frame `df.iloc[-1]`
raises, modelled as `none`. -/
def computeSignals (closes : List ℚ) (debugMode : Bool) : Option SignalOutput :=
  if closes.length = 0 then none
  else
    let i := closes.length - 1
    let bull := emaBullCol closes i
    let bear := emaBearCol closes i
    let bdiv := bullDivCol closes i
    let rdiv := bearDivCol closes i
    let sigs :=
      (if bull then ["EMA Bullish Cross - EMA5 > EMA21"] else []) ++
      (if bear then ["EMA Bearish Cross - EMA5 < EMA21"] else []) ++
      (if bdiv then ["Bullish RSI Divergence"] else []) ++
      (if rdiv then ["Bearish RSI Divergence"] else [])
    let status : Option StatusLine :=
      if debugMode then
        some
          { close := closeF closes i
            ema5 := emaCol 5 closes i
            ema21 := emaCol 21 closes i
            diff := diffLast closes
            trend := trendLabel (diffLast closes) }
      else none
    some
      { emaBull := bull, emaBear := bear, bullDiv := bdiv, bearDiv := rdiv
        signals := sigs, debugStatus := status }

/-- Value stored in a dataframe cell: the script's columns are either
numeric (possibly NaN) or boolean (the four flag columns). -/
inductive ColVal where
  | q (x : Option ℚ)
  | b (x : Bool)
deriving DecidableEq

/-- Dataframe model for the mutation claims: the `close` column that
`compute_signals` reads, plus every other column by name (the fetched
frames also carry `time`, `open`, `high`, `low`, `volume`). -/
structure Frame where
  close : List ℚ
  others : List (String × List ColVal)
deriving DecidableEq

/-- Assignment `df[k] = v`: overwrite the column if the name exists,
otherwise append it. -/
def setCol (cols : List (String × List ColVal)) (k : String)
    (v : List ColVal) : List (String × List ColVal) :=
  if cols.any (fun p => p.1 == k) then
    cols.map (fun p => if p.1 == k then (k, v) else p)
  else cols ++ [(k, v)]

/-- Materialize a numeric column of `n` rows. -/
def qCol (n : ℕ) (col : ℕ → Option ℚ) : List ColVal :=
  (List.range n).map (fun i => ColVal.q (col i))

/-- Materialize a boolean column of `n` rows. -/
def bCol (n : ℕ) (col : ℕ → Bool) : List ColVal :=
  (List.range n).map (fun i => ColVal.b (col i))

/-- Names of the seven columns `compute_signals` assigns in place. -/
def derivedNames : List String :=
  ["rsi", "ema5", "ema21", "ema_bull", "ema_bear", "bull_div", "bear_div"]

/-- Column lookup by name. -/
def lookupCol (k : String) (cols : List (String × List ColVal)) :
    Option (List ColVal) :=
  (cols.find? (fun p => p.1 == k)).map (fun p => p.2)

/-- Effect of `compute_signals(df)` on the caller's dataframe: the seven
in-place column assignments of lines 160-167 of the script.  The `close`
column is only read. -/
def computeSignalsFrame (f : Frame) : Frame :=
  let n := f.close.length
  let c := f.close
  { close := c
    others :=
      setCol (setCol (setCol (setCol (setCol (setCol (setCol f.others
        "rsi" (qCol n (rsiCol c)))
        "ema5" (qCol n (emaCol 5 c)))
        "ema21" (qCol n (emaCol 21 c)))
        "ema_bull" (bCol n (emaBullCol c)))
        "ema_bear" (bCol n (emaBearCol c)))
        "bull_div" (bCol n (bullDivCol c)))
        "bear_div" (bCol n (bearDivCol c)) }

/-- Outcome of one 15-minute polling cycle (`job`). -/
inductive JobResult where
  | crashed
  | skippedNoData
  | ran (out : SignalOutput)
deriving DecidableEq

/-- The `job()` cycle, taking the results of the two fetchers as input
(`none` models a fetcher returning `None` after printing its warning).
The guard is `df = get_data_fyers() or get_data_yfinance()`: Python
evaluates `bool(get_data_fyers())`, and `bool` of a pandas DataFrame
raises `ValueError` unconditionally, so a successful primary fetch
crashes the cycle before any signal is computed.  When the primary
fetch fails (`None`), the fallback result is used; `df is None or
len(df) < 50` logs "No valid data fetched." and skips; otherwise
`compute_signals(df)` runs (its crash on an empty frame cannot trigger
here since the length is at least 50). -/
def jobModel (debugMode : Bool) (primary fallback : Option (List ℚ)) :
    JobResult :=
  match primary with
  | some _ => .crashed
  | none =>
    match fallback with
    | none => .skippedNoData
    | some closes =>
      if closes.length < 50 then .skippedNoData
      else
        match computeSignals closes debugMode with
        | some out => .ran out
        | none => .crashed

/-- Cached NSE holiday state (`_last_holidays`): the date of the last
successful refresh and the cached holiday list.  Dates are Python
proleptic-Gregorian ordinals (`date.toordinal()`), so day 1 is
0001-01-01, a Monday. -/
structure HolState where
  cacheDate : Option ℤ
  list : List ℤ
deriving DecidableEq

/-- Python `date.weekday()`: Monday is 0, Sunday is 6. -/
def weekday (d : ℤ) : ℤ := (d - 1) % 7

/-- The refresh guard of `is_market_holiday`:
`not _last_holidays["date"] or (date - _last_holidays["date"]).days >= 7`. -/
def refreshDue (st : HolState) (date : ℤ) : Bool :=
  match st.cacheDate with
  | none => true
  | some d => decide (7 ≤ date - d)

/-- The `is_market_holiday(date)` function.  `fetch` is the outcome of
the guarded HTTP refresh (`none` models any exception: HTTP error or
unparsable response, which the `except` branch turns into a warning that
leaves `_last_holidays` untouched).  Weekends return `True` before the
refresh code is reached, so `fetch` is irrelevant there.  Returns the
boolean answer and the new cache state. -/
def isMarketHoliday (st : HolState) (date : ℤ) (fetch : Option (List ℤ)) :
    Bool × HolState :=
  if 5 ≤ weekday date then (true, st)
  else
    let st2 :=
      if refreshDue st date then
        match fetch with
        | some hs => { cacheDate := some date, list := hs }
        | none => st
      else st
    (decide (date ∈ st2.list), st2)

/-- Output of `compute_signals` on a short constant series with debug
mode off: no flag fires, no signal message, no status I/O. -/
def outPlain : SignalOutput :=
  { emaBull := false, emaBear := false, bullDiv := false, bearDiv := false
    signals := [], debugStatus := none }

/-- Output of `compute_signals` on 22 bars of constant close 7 with
debug mode on: no flag fires and the status line reports trend
"Bearish" with diff 0. -/
def outDebug7 : SignalOutput :=
  { emaBull := false, emaBear := false, bullDiv := false, bearDiv := false
    signals := []
    debugStatus := some
      { close := 7, ema5 := some 7, ema21 := some 7, diff := some 0
        trend := "Bearish" } }

/-- A fetched two-bar frame carrying only an extra `open` column,
used as a concrete caller-side dataframe. -/
def frameTwoBars : Frame :=
  { close := [1, 2]
    others := [("open", [ColVal.q (some 1), ColVal.q (some 2)])] }

end NiftyAlerts

namespace NiftyAlerts

theorem optLt_none_right (a : Option ℚ) : optLt a none = false := by
  cases a <;> rfl

theorem optLe_none_right (a : Option ℚ) : optLe a none = false := by
  cases a <;> rfl

theorem optGt_none_right (a : Option ℚ) : optGt a none = false := by
  cases a <;> rfl

theorem optGe_none_right (a : Option ℚ) : optGe a none = false := by
  cases a <;> rfl

theorem optLt_some_some (a b : ℚ) : optLt (some a) (some b) = decide (a < b) := rfl

theorem optLe_some_some (a b : ℚ) : optLe (some a) (some b) = decide (a ≤ b) := rfl

theorem optGt_some_some (a b : ℚ) : optGt (some a) (some b) = decide (b < a) := rfl

theorem optGe_some_some (a b : ℚ) : optGe (some a) (some b) = decide (b ≤ a) := rfl

theorem ewmRec_congr (a : ℚ) (x y : ℕ → ℚ) (i : ℕ)
    (h : ∀ j, j ≤ i → x j = y j) : ewmRec a x i = ewmRec a y i := by
  induction i with
  | zero => simpa [ewmRec] using h 0 (by omega)
  | succ k ih =>
    simp only [ewmRec]
    rw [ih (fun j hj => h j (by omega)), h (k + 1) (by omega)]

theorem ewmRec_const (a c : ℚ) (i : ℕ) : ewmRec a (fun _ => c) i = c := by
  induction i with
  | zero => rfl
  | succ k ih => simp only [ewmRec, ih]; ring

theorem closeF_replicate (n : ℕ) (c : ℚ) (j : ℕ) (h : j < n) :
    closeF (List.replicate n c) j = c := by
  simp [closeF, List.getD_eq_getElem?_getD, List.getElem?_replicate, h]

theorem emaVal_replicate (w n : ℕ) (c : ℚ) (i : ℕ) (h : i < n) :
    emaVal w (List.replicate n c) i = c := by
  unfold emaVal
  rw [ewmRec_congr _ _ (fun _ => c) i
    (fun j hj => closeF_replicate n c j (by omega))]
  exact ewmRec_const _ c i

theorem avgLoss_replicate (n : ℕ) (c : ℚ) (i : ℕ) (h : i < n) :
    avgLoss (List.replicate n c) i = 0 := by
  unfold avgLoss
  have hz : ∀ j, j ≤ i →
      (if j = 0 then (0 : ℚ) else lossAt (List.replicate n c) j) =
        (fun _ => (0 : ℚ)) j := by
    intro j hj
    by_cases h0 : j = 0
    · rw [if_pos h0]
    · rw [if_neg h0]
      unfold lossAt
      rw [closeF_replicate n c j (by omega),
        closeF_replicate n c (j - 1) (by omega)]
      simp
  rw [ewmRec_congr _ _ (fun _ => 0) i hz]
  exact ewmRec_const _ 0 i

theorem rsiVal_replicate (n : ℕ) (c : ℚ) (i : ℕ) (h : i < n) :
    rsiVal (List.replicate n c) i = 100 := by
  unfold rsiVal
  rw [if_pos (avgLoss_replicate n c i h)]

theorem find?_overwrite (cols : List (String × List ColVal))
    (name k : String) (v : List ColVal) (h : k ≠ name) :
    (cols.map (fun p => if p.1 == name then (name, v) else p)).find?
        (fun p => p.1 == k) =
      cols.find? (fun p => p.1 == k) := by
  induction cols with
  | nil => rfl
  | cons p t ih =>
    simp only [List.map_cons]
    by_cases hp : p.1 = name
    · have hk1 : ((name, v).1 == k) = false := by
        simp only [beq_eq_false_iff_ne]; exact fun he => h he.symm
      have hk2 : (p.1 == k) = false := by
        simp only [beq_eq_false_iff_ne, hp]; exact fun he => h he.symm
      rw [if_pos (by simp [hp])]
      simp only [List.find?, hk1, hk2]
      exact ih
    · rw [if_neg (by simp [hp])]
      cases hk : (p.1 == k)
      · simp only [List.find?, hk]; exact ih
      · simp only [List.find?, hk]

theorem find?_append_single (cols : List (String × List ColVal))
    (name k : String) (v : List ColVal) (h : k ≠ name) :
    (cols ++ [(name, v)]).find? (fun p => p.1 == k) =
      cols.find? (fun p => p.1 == k) := by
  induction cols with
  | nil =>
    have hk1 : ((name, v).1 == k) = false := by
      simp only [beq_eq_false_iff_ne]; exact fun he => h he.symm
    simp only [List.nil_append, List.find?, hk1]
  | cons p t ih =>
    simp only [List.cons_append]
    cases hk : (p.1 == k)
    · simp only [List.find?, hk]; exact ih
    · simp only [List.find?, hk]

theorem lookupCol_setCol_ne (cols : List (String × List ColVal))
    (name k : String) (v : List ColVal) (h : k ≠ name) :
    lookupCol k (setCol cols name v) = lookupCol k cols := by
  unfold lookupCol setCol
  split
  · rw [find?_overwrite cols name k v h]
  · rw [find?_append_single cols name k v h]

theorem optGt_optLt_and_false (x y : Option ℚ) (A B : Bool) :
    ((optGt x y && A) && (optLt x y && B)) = false := by
  cases x with
  | none => rfl
  | some a =>
    cases y with
    | none => rfl
    | some b =>
      simp only [optGt_some_some, optLt_some_some]
      by_cases hba : b < a
      · have hab : ¬ a < b := lt_asymm hba
        simp [hba, hab]
      · simp [hba]

theorem bullBearCol_false (closes : List ℚ) (i : ℕ) :
    (emaBullCol closes i && emaBearCol closes i) = false := by
  unfold emaBullCol emaBearCol
  exact optGt_optLt_and_false _ _ _ _

theorem computeSignals_eq_some (closes : List ℚ) (debugMode : Bool)
    (h0 : ¬ closes.length = 0) :
    computeSignals closes debugMode = some
      { emaBull := emaBullCol closes (closes.length - 1)
        emaBear := emaBearCol closes (closes.length - 1)
        bullDiv := bullDivCol closes (closes.length - 1)
        bearDiv := bearDivCol closes (closes.length - 1)
        signals :=
          (if emaBullCol closes (closes.length - 1) then
            ["EMA Bullish Cross - EMA5 > EMA21"] else []) ++
          (if emaBearCol closes (closes.length - 1) then
            ["EMA Bearish Cross - EMA5 < EMA21"] else []) ++
          (if bullDivCol closes (closes.length - 1) then
            ["Bullish RSI Divergence"] else []) ++
          (if bearDivCol closes (closes.length - 1) then
            ["Bearish RSI Divergence"] else [])
        debugStatus :=
          if debugMode then
            some
              { close := closeF closes (closes.length - 1)
                ema5 := emaCol 5 closes (closes.length - 1)
                ema21 := emaCol 21 closes (closes.length - 1)
                diff := diffLast closes
                trend := trendLabel (diffLast closes) }
          else none } := by
  unfold computeSignals
  rw [if_neg h0]

theorem emaBullCol_char (closes : List ℚ) (i : ℕ) (h1 : i < closes.length)
    (h2 : 21 ≤ i) :
    emaBullCol closes i =
      (decide (emaVal 21 closes i < emaVal 5 closes i) &&
        decide (emaVal 5 closes (i - 1) ≤ emaVal 21 closes (i - 1))) := by
  unfold emaBullCol shiftCol
  rw [if_pos (by omega : 1 ≤ i), if_pos (by omega : 1 ≤ i)]
  unfold emaCol
  rw [if_pos (⟨h1, by omega⟩ : i < closes.length ∧ 5 ≤ i + 1),
    if_pos (⟨h1, by omega⟩ : i < closes.length ∧ 21 ≤ i + 1),
    if_pos (⟨by omega, by omega⟩ : i - 1 < closes.length ∧ 5 ≤ i - 1 + 1),
    if_pos (⟨by omega, by omega⟩ : i - 1 < closes.length ∧ 21 ≤ i - 1 + 1)]
  rfl

theorem emaBearCol_char (closes : List ℚ) (i : ℕ) (h1 : i < closes.length)
    (h2 : 21 ≤ i) :
    emaBearCol closes i =
      (decide (emaVal 5 closes i < emaVal 21 closes i) &&
        decide (emaVal 21 closes (i - 1) ≤ emaVal 5 closes (i - 1))) := by
  unfold emaBearCol shiftCol
  rw [if_pos (by omega : 1 ≤ i), if_pos (by omega : 1 ≤ i)]
  unfold emaCol
  rw [if_pos (⟨h1, by omega⟩ : i < closes.length ∧ 5 ≤ i + 1),
    if_pos (⟨h1, by omega⟩ : i < closes.length ∧ 21 ≤ i + 1),
    if_pos (⟨by omega, by omega⟩ : i - 1 < closes.length ∧ 5 ≤ i - 1 + 1),
    if_pos (⟨by omega, by omega⟩ : i - 1 < closes.length ∧ 21 ≤ i - 1 + 1)]
  rfl

theorem eval_const22_plain :
    computeSignals (List.replicate 22 (7 : ℚ)) false = some outPlain := by
  norm_num [computeSignals, outPlain, emaBullCol, emaBearCol, bullDivCol,
    bearDivCol, emaCol, emaVal, ewmRec, closeF, rsiCol, rsiVal, avgGain,
    avgLoss, gainAt, lossAt, optLt, optLe, optGt, optGe, optSub, diffLast,
    trendLabel, shiftCol, closeCol, LOOKBACK]

theorem eval_const22_debug :
    computeSignals (List.replicate 22 (7 : ℚ)) true = some outDebug7 := by
  norm_num [computeSignals, outDebug7, emaBullCol, emaBearCol, bullDivCol,
    bearDivCol, emaCol, emaVal, ewmRec, closeF, rsiCol, rsiVal, avgGain,
    avgLoss, gainAt, lossAt, optLt, optLe, optGt, optGe, optSub, diffLast,
    trendLabel, shiftCol, closeCol, LOOKBACK]

/-- C6: on every series and in every configuration, the bullish-cross
and bearish-cross flags produced by `compute_signals` are never both
true in the same evaluation. -/
theorem crossover_flags_mutually_exclusive (closes : List ℚ)
    (debugMode : Bool) :
    Option.all (fun o => !(o.emaBull && o.emaBear))
      (computeSignals closes debugMode) = true := by
  by_cases h0 : closes.length = 0
  · unfold computeSignals
    rw [if_pos h0]
    rfl
  · rw [computeSignals_eq_some closes debugMode h0]
    simp [Option.all, bullBearCol_false]

/-- C9: evidence for the fetch-fallback bug.  The cycle guard
`df = get_data_fyers() or get_data_yfinance()` calls `bool` on the
DataFrame whenever the primary fetch succeeds, which raises an uncaught
`ValueError` before any signal is computed; when both fetches fail the
cycle is skipped silently with only a log line.  The script's own
docstring promises "Fallback to Yahoo Finance if Fyers unavailable",
i.e. a successful primary fetch must flow into signal evaluation. -/
theorem primary_fetch_success_crashes_cycle :
    jobModel true (some (List.replicate 100 (1 : ℚ))) none =
      JobResult.crashed ∧
    jobModel true none none = JobResult.skippedNoData := ⟨rfl, rfl⟩

/-- C10: weekend dates answer `True` before the network refresh is
reached (the answer and the cache are independent of the fetch
outcome); on a weekday a failed refresh leaves the cached holiday list
unchanged and the answer is membership in the previously cached list,
so with the initial empty cache a fetch failure makes the date count as
a trading day (the daily summary is not skipped). -/
theorem holiday_fetch_failure (st : HolState) (d : ℤ) :
    (∀ fetch, 5 ≤ weekday d → isMarketHoliday st d fetch = (true, st)) ∧
    (weekday d < 5 →
      isMarketHoliday st d none = (decide (d ∈ st.list), st)) ∧
    (weekday d < 5 →
      isMarketHoliday ⟨none, []⟩ d none = (false, ⟨none, []⟩)) := by
  refine ⟨fun fetch hw => ?_, fun hw => ?_, fun hw => ?_⟩
  · unfold isMarketHoliday
    rw [if_pos hw]
  · unfold isMarketHoliday
    rw [if_neg (by omega)]
    cases hdue : refreshDue st d <;> simp [hdue]
  · unfold isMarketHoliday
    rw [if_neg (by omega)]
    simp [refreshDue]

/-- C10 witness: ordinal 6 (0001-01-06, a Saturday) answers holiday
without touching the fetch result; ordinal 2 (a Tuesday) under a failed
fetch and an empty cache is a trading day. -/
theorem holiday_fetch_failure_witness :
    isMarketHoliday ⟨none, []⟩ 6 (some [40]) = (true, ⟨none, []⟩) ∧
    isMarketHoliday ⟨none, []⟩ 2 none = (false, ⟨none, []⟩) :=
  ⟨(holiday_fetch_failure ⟨none, []⟩ 6).1 (some [40]) (by decide),
   (holiday_fetch_failure ⟨none, []⟩ 2).2.2 (by decide)⟩

/-- C4 amended: `compute_signals` is deterministic and carries no state
between calls: the four flags and the signal list depend only on the
close column, identically in debug and non-debug configuration, and a
second call on the dataframe mutated by a first call returns the same
output.  The I/O part of the claim is refuted separately: in debug mode
the function prints and sends a status alert. -/
theorem compute_signals_deterministic (f : Frame) (d1 d2 : Bool) :
    (computeSignals f.close d1).map
        (fun o => (o.emaBull, o.emaBear, o.bullDiv, o.bearDiv, o.signals)) =
      (computeSignals f.close d2).map
        (fun o => (o.emaBull, o.emaBear, o.bullDiv, o.bearDiv, o.signals)) ∧
    computeSignals (computeSignalsFrame f).close d1 =
      computeSignals f.close d1 := by
  constructor
  · by_cases h0 : f.close.length = 0
    · unfold computeSignals
      rw [if_pos h0, if_pos h0]
    · rw [computeSignals_eq_some f.close d1 h0,
        computeSignals_eq_some f.close d2 h0]
      simp
  · rfl

/-- C4 counterexample: with the debug flag on (the shipped default,
`debug_mode` defaults to `True`), `compute_signals` performs I/O on
every invocation: it prints the EMA status line and passes it to
`send_alert`, modelled by the `debugStatus` field being set. -/
theorem debug_mode_sends_alert :
    (computeSignals (List.replicate 22 (7 : ℚ)) true).map
      (fun o => o.debugStatus.isSome) = some true := by
  rw [eval_const22_debug]
  rfl

/-- C3 counterexample: `compute_signals` itself performs no length
check and has no typed-failure channel: on a 49-bar series it runs and
produces a SignalSet rather than reporting InsufficientHistory. -/
theorem short_series_still_produces_output :
    (computeSignals (List.replicate 49 (1 : ℚ)) false).isSome = true := by
  rw [computeSignals_eq_some (List.replicate 49 (1 : ℚ)) false (by simp)]
  rfl

/-- C3 amended: the 50-bar minimum is enforced by the caller `job`, not
by `compute_signals`, and as a silent skip rather than a typed failure:
on the fallback-fetch path a series of fewer than 50 bars makes the
cycle log and skip without invoking `compute_signals`, and a series of
at least 50 bars (in particular exactly 50) proceeds into
`compute_signals`. -/
theorem job_length_guard (debugMode : Bool) (closes : List ℚ) :
    (closes.length < 50 →
      jobModel debugMode none (some closes) = JobResult.skippedNoData) ∧
    (50 ≤ closes.length → ∃ out, computeSignals closes debugMode = some out ∧
      jobModel debugMode none (some closes) = JobResult.ran out) := by
  have hred : jobModel debugMode none (some closes) =
      if closes.length < 50 then JobResult.skippedNoData
      else
        match computeSignals closes debugMode with
        | some out => JobResult.ran out
        | none => JobResult.crashed := rfl
  constructor
  · intro h
    rw [hred, if_pos h]
  · intro h
    have h0 : ¬ closes.length = 0 := by omega
    refine ⟨_, computeSignals_eq_some closes debugMode h0, ?_⟩
    rw [hred, if_neg (by omega), computeSignals_eq_some closes debugMode h0]

/-- C3 witness: a 49-bar fallback series is skipped by `job`; a 50-bar
fallback series is not skipped (it reaches `compute_signals`). -/
theorem job_length_guard_witness :
    jobModel false none (some (List.replicate 49 (1 : ℚ))) =
      JobResult.skippedNoData ∧
    jobModel false none (some (List.replicate 50 (1 : ℚ))) ≠
      JobResult.skippedNoData := by
  constructor
  · exact (job_length_guard false (List.replicate 49 (1 : ℚ))).1 (by simp)
  · obtain ⟨out, _, h2⟩ :=
      (job_length_guard false (List.replicate 50 (1 : ℚ))).2 (by simp)
    rw [h2]
    simp

/-- C5 counterexample: the caller's dataframe is not left unchanged:
`compute_signals` assigns seven new columns in place (lines 160-167),
so a frame fetched with its original columns differs from itself after
the call. -/
theorem compute_signals_mutates_frame :
    computeSignalsFrame frameTwoBars ≠ frameTwoBars := by
  intro h
  have h2 := congrArg (fun fr => fr.others.length) h
  simp [computeSignalsFrame, frameTwoBars, setCol, qCol, bCol] at h2

/-- C5 amended: `compute_signals` mutates the caller's dataframe by
writing the seven derived columns (rsi, ema5, ema21, ema_bull,
ema_bear, bull_div, bear_div) in place, but the close column and every
column whose name is not among those seven are left unchanged. -/
theorem frame_preserves_other_columns (f : Frame) (k : String)
    (hk : k ∉ derivedNames) :
    (computeSignalsFrame f).close = f.close ∧
    lookupCol k (computeSignalsFrame f).others = lookupCol k f.others := by
  have h1 : k ≠ "rsi" := fun he => hk (by rw [he]; decide)
  have h2 : k ≠ "ema5" := fun he => hk (by rw [he]; decide)
  have h3 : k ≠ "ema21" := fun he => hk (by rw [he]; decide)
  have h4 : k ≠ "ema_bull" := fun he => hk (by rw [he]; decide)
  have h5 : k ≠ "ema_bear" := fun he => hk (by rw [he]; decide)
  have h6 : k ≠ "bull_div" := fun he => hk (by rw [he]; decide)
  have h7 : k ≠ "bear_div" := fun he => hk (by rw [he]; decide)
  refine ⟨rfl, ?_⟩
  show lookupCol k
      (setCol (setCol (setCol (setCol (setCol (setCol (setCol f.others
        "rsi" (qCol f.close.length (rsiCol f.close)))
        "ema5" (qCol f.close.length (emaCol 5 f.close)))
        "ema21" (qCol f.close.length (emaCol 21 f.close)))
        "ema_bull" (bCol f.close.length (emaBullCol f.close)))
        "ema_bear" (bCol f.close.length (emaBearCol f.close)))
        "bull_div" (bCol f.close.length (bullDivCol f.close)))
        "bear_div" (bCol f.close.length (bearDivCol f.close))) =
    lookupCol k f.others
  rw [lookupCol_setCol_ne _ _ _ _ h7, lookupCol_setCol_ne _ _ _ _ h6,
    lookupCol_setCol_ne _ _ _ _ h5, lookupCol_setCol_ne _ _ _ _ h4,
    lookupCol_setCol_ne _ _ _ _ h3, lookupCol_setCol_ne _ _ _ _ h2,
    lookupCol_setCol_ne _ _ _ _ h1]

/-- C5 witness: on a concrete two-bar frame the pre-existing `open`
column and the close column survive the call unchanged. -/
theorem frame_preserves_other_columns_witness :
    (computeSignalsFrame frameTwoBars).close = frameTwoBars.close ∧
    lookupCol "open" (computeSignalsFrame frameTwoBars).others =
      lookupCol "open" frameTwoBars.others :=
  frame_preserves_other_columns frameTwoBars "open" (by decide)

/-- C1: whenever both EMAs are defined on the last two bars (at least
22 bars), the bullish-cross flag of `compute_signals` is set exactly
when EMA5 is strictly above EMA21 on the last bar and was at most EMA21
on the previous bar, and the bearish-cross flag exactly when EMA5 is
strictly below EMA21 on the last bar and was at least EMA21 on the
previous bar; the flags are functions of the four EMA values on the
final two bars only. -/
theorem crossover_flags_last_two_bars (closes : List ℚ) (debugMode : Bool)
    (out : SignalOutput) (h : computeSignals closes debugMode = some out)
    (hlen : 22 ≤ closes.length) :
    (out.emaBull = true ↔
      emaVal 21 closes (closes.length - 1) <
        emaVal 5 closes (closes.length - 1) ∧
      emaVal 5 closes (closes.length - 2) ≤
        emaVal 21 closes (closes.length - 2)) ∧
    (out.emaBear = true ↔
      emaVal 5 closes (closes.length - 1) <
        emaVal 21 closes (closes.length - 1) ∧
      emaVal 21 closes (closes.length - 2) ≤
        emaVal 5 closes (closes.length - 2)) := by
  have h0 : ¬ closes.length = 0 := by omega
  rw [computeSignals_eq_some closes debugMode h0] at h
  have hout := (Option.some.inj h).symm
  subst hout
  have e2 : closes.length - 1 - 1 = closes.length - 2 := by omega
  simp only [emaBullCol_char closes (closes.length - 1) (by omega) (by omega),
    emaBearCol_char closes (closes.length - 1) (by omega) (by omega), e2,
    Bool.and_eq_true, decide_eq_true_eq]
  exact ⟨trivial, trivial⟩

/-- C1 witness: on 22 bars of constant close 7 neither crossover flag
is set, and indeed neither strict EMA inequality on the last bar
holds. -/
theorem crossover_flags_last_two_bars_witness :
    (outPlain.emaBull = true ↔
      emaVal 21 (List.replicate 22 (7 : ℚ))
          ((List.replicate 22 (7 : ℚ)).length - 1) <
        emaVal 5 (List.replicate 22 (7 : ℚ))
          ((List.replicate 22 (7 : ℚ)).length - 1) ∧
      emaVal 5 (List.replicate 22 (7 : ℚ))
          ((List.replicate 22 (7 : ℚ)).length - 2) ≤
        emaVal 21 (List.replicate 22 (7 : ℚ))
          ((List.replicate 22 (7 : ℚ)).length - 2)) ∧
    (outPlain.emaBear = true ↔
      emaVal 5 (List.replicate 22 (7 : ℚ))
          ((List.replicate 22 (7 : ℚ)).length - 1) <
        emaVal 21 (List.replicate 22 (7 : ℚ))
          ((List.replicate 22 (7 : ℚ)).length - 1) ∧
      emaVal 21 (List.replicate 22 (7 : ℚ))
          ((List.replicate 22 (7 : ℚ)).length - 2) ≤
        emaVal 5 (List.replicate 22 (7 : ℚ))
          ((List.replicate 22 (7 : ℚ)).length - 2)) :=
  crossover_flags_last_two_bars (List.replicate 22 (7 : ℚ)) false outPlain
    eval_const22_plain (by simp)

theorem bullDivCol_last (closes : List ℚ) (h0 : 1 ≤ closes.length) :
    bullDivCol closes (closes.length - 1) =
      (decide (104 ≤ closes.length) &&
        (decide (closeF closes (closes.length - 1) <
            closeF closes (closes.length - 91)) &&
          decide (rsiVal closes (closes.length - 91) <
            rsiVal closes (closes.length - 1)))) := by
  unfold bullDivCol shiftCol LOOKBACK
  rcases Nat.lt_or_ge closes.length 91 with hlt | hge
  · rw [if_neg (by omega : ¬ 90 ≤ closes.length - 1),
      if_neg (by omega : ¬ 90 ≤ closes.length - 1),
      decide_eq_false (by omega : ¬ 104 ≤ closes.length)]
    simp [optLt_none_right, optGt_none_right]
  · rw [if_pos (by omega : 90 ≤ closes.length - 1),
      if_pos (by omega : 90 ≤ closes.length - 1),
      (by omega : closes.length - 1 - 90 = closes.length - 91)]
    unfold closeCol rsiCol
    rw [if_pos (by omega : closes.length - 1 < closes.length),
      if_pos (by omega : closes.length - 91 < closes.length),
      if_pos (⟨by omega, by omega⟩ :
        closes.length - 1 < closes.length ∧ 13 ≤ closes.length - 1)]
    rcases Nat.lt_or_ge closes.length 104 with h104 | h104
    · rw [if_neg (by omega :
        ¬ (closes.length - 91 < closes.length ∧ 13 ≤ closes.length - 91)),
        decide_eq_false (by omega : ¬ 104 ≤ closes.length)]
      simp [optGt_none_right]
    · rw [if_pos (⟨by omega, by omega⟩ :
        closes.length - 91 < closes.length ∧ 13 ≤ closes.length - 91),
        decide_eq_true (by omega : 104 ≤ closes.length)]
      simp [optLt_some_some, optGt_some_some]

theorem bearDivCol_last (closes : List ℚ) (h0 : 1 ≤ closes.length) :
    bearDivCol closes (closes.length - 1) =
      (decide (104 ≤ closes.length) &&
        (decide (closeF closes (closes.length - 91) <
            closeF closes (closes.length - 1)) &&
          decide (rsiVal closes (closes.length - 1) <
            rsiVal closes (closes.length - 91)))) := by
  unfold bearDivCol shiftCol LOOKBACK
  rcases Nat.lt_or_ge closes.length 91 with hlt | hge
  · rw [if_neg (by omega : ¬ 90 ≤ closes.length - 1),
      if_neg (by omega : ¬ 90 ≤ closes.length - 1),
      decide_eq_false (by omega : ¬ 104 ≤ closes.length)]
    simp [optLt_none_right, optGt_none_right]
  · rw [if_pos (by omega : 90 ≤ closes.length - 1),
      if_pos (by omega : 90 ≤ closes.length - 1),
      (by omega : closes.length - 1 - 90 = closes.length - 91)]
    unfold closeCol rsiCol
    rw [if_pos (by omega : closes.length - 1 < closes.length),
      if_pos (by omega : closes.length - 91 < closes.length),
      if_pos (⟨by omega, by omega⟩ :
        closes.length - 1 < closes.length ∧ 13 ≤ closes.length - 1)]
    rcases Nat.lt_or_ge closes.length 104 with h104 | h104
    · rw [if_neg (by omega :
        ¬ (closes.length - 91 < closes.length ∧ 13 ≤ closes.length - 91)),
        decide_eq_false (by omega : ¬ 104 ≤ closes.length)]
      simp [optLt_none_right]
    · rw [if_pos (⟨by omega, by omega⟩ :
        closes.length - 91 < closes.length ∧ 13 ≤ closes.length - 91),
        decide_eq_true (by omega : 104 ≤ closes.length)]
      simp [optLt_some_some, optGt_some_some]

/-- C2: the bullish-divergence flag of `compute_signals` is set exactly
when the last close is strictly below the close 90 bars earlier and the
last RSI is strictly above the RSI 90 bars earlier (which requires both
RSI values to be defined: the RSI column starts at row 13, so at least
104 bars); symmetrically for the bearish-divergence flag; and on any
series of at most 90 bars both divergence flags are false, the index 90
bars back being out of range. -/
theorem divergence_flags (closes : List ℚ) (debugMode : Bool)
    (out : SignalOutput) (h : computeSignals closes debugMode = some out) :
    (out.bullDiv = true ↔
      104 ≤ closes.length ∧
      closeF closes (closes.length - 1) < closeF closes (closes.length - 91) ∧
      rsiVal closes (closes.length - 91) < rsiVal closes (closes.length - 1)) ∧
    (out.bearDiv = true ↔
      104 ≤ closes.length ∧
      closeF closes (closes.length - 91) < closeF closes (closes.length - 1) ∧
      rsiVal closes (closes.length - 1) < rsiVal closes (closes.length - 91)) ∧
    (closes.length ≤ 90 → out.bullDiv = false ∧ out.bearDiv = false) := by
  have h0 : ¬ closes.length = 0 := by
    intro hz
    unfold computeSignals at h
    rw [if_pos hz] at h
    exact Option.noConfusion h
  rw [computeSignals_eq_some closes debugMode h0] at h
  have hout := (Option.some.inj h).symm
  subst hout
  simp only [bullDivCol_last closes (by omega), bearDivCol_last closes (by omega),
    Bool.and_eq_true, decide_eq_true_eq]
  refine ⟨trivial, trivial, fun h90 => ?_⟩
  constructor <;>
    simp [decide_eq_false (by omega : ¬ 104 ≤ closes.length)]

/-- C2 witness: a concrete 22-bar series (at most 90 bars) has both
divergence flags false. -/
theorem divergence_flags_witness :
    outPlain.bullDiv = false ∧ outPlain.bearDiv = false :=
  (divergence_flags (List.replicate 22 (7 : ℚ)) false outPlain
    eval_const22_plain).2.2 (by simp)

theorem optSub_none_right (a : Option ℚ) : optSub a none = none := by
  cases a <;> rfl

/-- C7 counterexample: on a constant close series the code's RSI is 100
wherever it is defined, not 50: the `ta` implementation maps a zero
average loss to 100 (`np.where(emadn == 0, 100, ...)`), and on a
constant series every average loss is 0.  Rows 13 (the first defined
row) and 21 of 22 constant bars are concrete defined rows where RSI is
100. -/
theorem constant_series_rsi_is_100 :
    rsiCol (List.replicate 22 (7 : ℚ)) 13 = some 100 ∧
    rsiCol (List.replicate 22 (7 : ℚ)) 21 = some 100 ∧ (100 : ℚ) ≠ 50 := by
  refine ⟨?_, ?_, by norm_num⟩
  · unfold rsiCol
    rw [if_pos (⟨by simp, by omega⟩ :
      13 < (List.replicate 22 (7 : ℚ)).length ∧ 13 ≤ 13)]
    exact congrArg some (rsiVal_replicate 22 7 13 (by omega))
  · unfold rsiCol
    rw [if_pos (⟨by simp, by omega⟩ :
      21 < (List.replicate 22 (7 : ℚ)).length ∧ 13 ≤ 21)]
    exact congrArg some (rsiVal_replicate 22 7 21 (by omega))

/-- C7 amended: on a constant close series, once defined, EMA5 and
EMA21 both equal the constant (so diff is 0), neither crossover flag
fires at any row, the debug status line reports trend "Bearish" per the
diff>0 tie-break, and RSI is 100 (not 50) at every defined row, i.e.
from row 13 on. -/
theorem constant_series_behavior (n : ℕ) (c : ℚ) :
    (∀ i, i < n → 20 ≤ i →
      emaCol 5 (List.replicate n c) i = some c ∧
      emaCol 21 (List.replicate n c) i = some c) ∧
    (∀ i, emaBullCol (List.replicate n c) i = false ∧
      emaBearCol (List.replicate n c) i = false) ∧
    (∀ i, i < n → 13 ≤ i → rsiCol (List.replicate n c) i = some 100) ∧
    (21 ≤ n → diffLast (List.replicate n c) = some 0) ∧
    (1 ≤ n → (computeSignals (List.replicate n c) true).map
        (fun o => (o.debugStatus.map StatusLine.trend, o.emaBull, o.emaBear)) =
      some (some "Bearish", false, false)) := by
  have hlen : (List.replicate n c).length = n := by simp
  have hema : ∀ w i, i < n → w ≤ i + 1 →
      emaCol w (List.replicate n c) i = some c := by
    intro w i hi hw
    unfold emaCol
    rw [if_pos (⟨by omega, hw⟩ : i < (List.replicate n c).length ∧ w ≤ i + 1)]
    rw [emaVal_replicate w n c i hi]
  have hema21none : ∀ i, ¬ (i < n ∧ 21 ≤ i + 1) →
      emaCol 21 (List.replicate n c) i = none := by
    intro i hi
    unfold emaCol
    rw [if_neg (by omega : ¬ (i < (List.replicate n c).length ∧ 21 ≤ i + 1))]
  have hflags : ∀ i, emaBullCol (List.replicate n c) i = false ∧
      emaBearCol (List.replicate n c) i = false := by
    intro i
    by_cases hd : i < n ∧ 21 ≤ i + 1
    · constructor
      · unfold emaBullCol
        rw [hema 5 i hd.1 (by omega), hema 21 i hd.1 hd.2]
        simp [optGt_some_some]
      · unfold emaBearCol
        rw [hema 5 i hd.1 (by omega), hema 21 i hd.1 hd.2]
        simp [optLt_some_some]
    · constructor
      · unfold emaBullCol
        rw [hema21none i hd]
        simp [optGt_none_right]
      · unfold emaBearCol
        rw [hema21none i hd]
        simp [optLt_none_right]
  have hrsi : ∀ i, i < n → 13 ≤ i →
      rsiCol (List.replicate n c) i = some 100 := by
    intro i hi h13
    unfold rsiCol
    rw [if_pos (⟨by omega, h13⟩ :
      i < (List.replicate n c).length ∧ 13 ≤ i)]
    exact congrArg some (rsiVal_replicate n c i hi)
  have hdiff : 21 ≤ n → diffLast (List.replicate n c) = some 0 := by
    intro h21
    unfold diffLast
    rw [hlen, hema 5 (n - 1) (by omega) (by omega),
      hema 21 (n - 1) (by omega) (by omega)]
    simp [optSub]
  have htrend : trendLabel (diffLast (List.replicate n c)) = "Bearish" := by
    rcases Nat.lt_or_ge n 21 with h21 | h21
    · have hnone : diffLast (List.replicate n c) = none := by
        unfold diffLast
        rw [hlen, hema21none (n - 1) (by omega)]
        exact optSub_none_right _
      rw [hnone]
      rfl
    · rw [hdiff h21]
      show (if (0 : ℚ) < 0 then "Bullish" else "Bearish") = "Bearish"
      rw [if_neg (lt_irrefl (0 : ℚ))]
  refine ⟨fun i hi h20 => ⟨hema 5 i hi (by omega), hema 21 i hi (by omega)⟩,
    hflags, hrsi, hdiff, fun h1 => ?_⟩
  rw [computeSignals_eq_some (List.replicate n c) true (by omega)]
  simp only [Option.map_some, htrend]
  simp [htrend]
  exact ⟨(hflags (n - 1)).1, (hflags (n - 1)).2⟩

/-- C7 witness: instantiated at 22 bars of constant close 7, including
the first defined RSI row 13. -/
theorem constant_series_behavior_witness :
    emaCol 5 (List.replicate 22 (7 : ℚ)) 21 = some 7 ∧
    emaCol 21 (List.replicate 22 (7 : ℚ)) 21 = some 7 ∧
    emaBullCol (List.replicate 22 (7 : ℚ)) 21 = false ∧
    emaBearCol (List.replicate 22 (7 : ℚ)) 21 = false ∧
    rsiCol (List.replicate 22 (7 : ℚ)) 13 = some 100 ∧
    rsiCol (List.replicate 22 (7 : ℚ)) 21 = some 100 ∧
    diffLast (List.replicate 22 (7 : ℚ)) = some 0 ∧
    (computeSignals (List.replicate 22 (7 : ℚ)) true).map
        (fun o => (o.debugStatus.map StatusLine.trend, o.emaBull, o.emaBear)) =
      some (some "Bearish", false, false) := by
  obtain ⟨ha, hb, hc, hd, he⟩ := constant_series_behavior 22 7
  exact ⟨(ha 21 (by omega) (by omega)).1, (ha 21 (by omega) (by omega)).2,
    (hb 21).1, (hb 21).2, hc 13 (by omega) (by omega),
    hc 21 (by omega) (by omega), hd (by omega), he (by omega)⟩

/-- C8: whenever the status line is produced (debug mode, nonempty
series) its trend label is the shared `trendLabel` of the EMA
difference on the last bar; the label is "Bullish" exactly when that
difference is defined and strictly positive and "Bearish" otherwise (in
particular for a difference of exactly 0), and the daily summary's bias
label applies the same tie-break. -/
theorem trend_and_bias_tiebreak (closes : List ℚ) (out : SignalOutput)
    (h : computeSignals closes true = some out) :
    (∃ st, out.debugStatus = some st ∧
      st.trend = trendLabel (diffLast closes)) ∧
    (trendLabel (diffLast closes) = "Bullish" ↔
      ∃ d, diffLast closes = some d ∧ 0 < d) ∧
    (trendLabel (diffLast closes) = "Bullish" ∨
      trendLabel (diffLast closes) = "Bearish") ∧
    (diffLast closes = some 0 → trendLabel (diffLast closes) = "Bearish") ∧
    (emaStatusBias closes = "Bullish Bias" ↔
      ∃ d, diffLast closes = some d ∧ 0 < d) ∧
    (diffLast closes = some 0 → emaStatusBias closes = "Bearish Bias") := by
  have h0 : ¬ closes.length = 0 := by
    intro hz
    unfold computeSignals at h
    rw [if_pos hz] at h
    exact Option.noConfusion h
  rw [computeSignals_eq_some closes true h0] at h
  have hout := (Option.some.inj h).symm
  subst hout
  have hmain : ∀ dv : Option ℚ,
      (trendLabel dv = "Bullish" ↔ ∃ d, dv = some d ∧ 0 < d) ∧
      (trendLabel dv = "Bullish" ∨ trendLabel dv = "Bearish") ∧
      (dv = some 0 → trendLabel dv = "Bearish") ∧
      (biasLabel dv = "Bullish Bias" ↔ ∃ d, dv = some d ∧ 0 < d) ∧
      (dv = some 0 → biasLabel dv = "Bearish Bias") := by
    intro dv
    cases dv with
    | none => simp [trendLabel, biasLabel]
    | some d =>
      by_cases hpos : 0 < d
      · refine ⟨by simp [trendLabel, hpos], Or.inl (by simp [trendLabel, hpos]),
          ?_, by simp [biasLabel, hpos], ?_⟩
        · rintro hz
          rw [Option.some.inj hz] at hpos
          exact absurd hpos (lt_irrefl 0)
        · rintro hz
          rw [Option.some.inj hz] at hpos
          exact absurd hpos (lt_irrefl 0)
      · refine ⟨?_, Or.inr (by simp [trendLabel, hpos]),
          fun _ => by simp [trendLabel, hpos], ?_,
          fun _ => by simp [biasLabel, hpos]⟩
        · simp only [trendLabel, if_neg hpos]
          constructor
          · intro hbad
            exact absurd hbad (by simp)
          · rintro ⟨d2, hd2, hp2⟩
            rw [Option.some.inj hd2] at hpos
            exact absurd hp2 hpos
        · simp only [biasLabel, if_neg hpos]
          constructor
          · intro hbad
            exact absurd hbad (by simp)
          · rintro ⟨d2, hd2, hp2⟩
            rw [Option.some.inj hd2] at hpos
            exact absurd hp2 hpos
  obtain ⟨m1, m2, m3, m4, m5⟩ := hmain (diffLast closes)
  exact ⟨⟨_, rfl, rfl⟩, m1, m2, m3, m4, m5⟩

/-- C8 witness: on 22 bars of constant close 7 the status line is
produced with diff 0 and trend "Bearish", and the bias is "Bearish
Bias". -/
theorem trend_and_bias_tiebreak_witness :
    (∃ st, outDebug7.debugStatus = some st ∧
      st.trend = trendLabel (diffLast (List.replicate 22 (7 : ℚ)))) ∧
    (trendLabel (diffLast (List.replicate 22 (7 : ℚ))) = "Bullish" ↔
      ∃ d, diffLast (List.replicate 22 (7 : ℚ)) = some d ∧ 0 < d) ∧
    (trendLabel (diffLast (List.replicate 22 (7 : ℚ))) = "Bullish" ∨
      trendLabel (diffLast (List.replicate 22 (7 : ℚ))) = "Bearish") ∧
    (diffLast (List.replicate 22 (7 : ℚ)) = some 0 →
      trendLabel (diffLast (List.replicate 22 (7 : ℚ))) = "Bearish") ∧
    (emaStatusBias (List.replicate 22 (7 : ℚ)) = "Bullish Bias" ↔
      ∃ d, diffLast (List.replicate 22 (7 : ℚ)) = some d ∧ 0 < d) ∧
    (diffLast (List.replicate 22 (7 : ℚ)) = some 0 →
      emaStatusBias (List.replicate 22 (7 : ℚ)) = "Bearish Bias") :=
  trend_and_bias_tiebreak (List.replicate 22 (7 : ℚ)) outDebug7
    eval_const22_debug

end NiftyAlerts
